import Mathlib

/-!
Shallow embedding of `src/connection.rs` of the `dasi-rs` gateway client.

The embedding translates the session state machine of `Connection` into pure
Lean functions.  Transport and channel I/O are made explicit: every effectful
step of the Rust code (raw websocket sends, keepalive-channel sends, transport
opens and shutdowns, sleeps, the entry log lines of `resume`/`reconnect`) is
recorded in an output trace of `Act` values, and the nondeterministic
environment (what `recv_json` yields, whether `Url::parse`, `Client::connect`,
`send_json` and socket shutdown succeed) is supplied as oracle data that each
function consumes.  State mutation of `self` becomes explicit state passing of
the `Connection` record.
-/

mutual

/-- JSON values as produced by the source's `ObjectBuilder`: objects keep their
insertion order, exactly as the builder inserts fields.  The only array the
core builds is a list of numeric server ids (`guild_id`), modelled directly. -/
inductive Json where
  | null
  | num (n : Nat)
  | str (s : String)
  | natArr (xs : List Nat)
  | obj (o : JFields)
deriving DecidableEq, Repr

inductive JFields where
  | nil
  | cons (key : String) (val : Json) (rest : JFields)
deriving DecidableEq, Repr

end

/-- Build an ordered JSON object field list from a Lean list of pairs. -/
def jf (ps : List (String × Json)) : JFields :=
  ps.foldr (fun p r => JFields.cons p.1 p.2 r) JFields.nil

/-- Look up a key in an ordered field list (first occurrence). -/
def JFields.lookupKey : JFields → String → Option Json
  | .nil, _ => none
  | .cons k v r, q => if k = q then some v else r.lookupKey q

/-- Extract the "op" field of a JSON envelope. -/
def jsonOp (j : Json) : Option Json :=
  match j with
  | .obj o => o.lookupKey "op"
  | _ => none

/-- Errors of the library's `Error` enum, restricted to the variants
`connection.rs` constructs or matches on.  `Error` itself lives in `lib.rs`
(not under `src/`); the variants and their roles are those of spec section 7.
`WebSocket` carries an abstracted description of the underlying error. -/
inductive Error where
  | WebSocket (msg : String)
  | Closed (code : Option Nat) (msg : String)
  | Protocol (msg : String)
  | Other (msg : String)
deriving DecidableEq, Repr

/-- Modelled from the spec: the READY snapshot fields that `connection.rs`
reads (`version`, `session_id`, `heartbeat_interval`); the `ReadyEvent` struct
itself is declared in `model.rs`, which is not under `src/`. -/
structure ReadyEvent where
  version : Nat
  session_id : String
  heartbeat_interval : Nat
deriving DecidableEq, Repr

/-- Modelled from the spec: decoded events.  `connection.rs` inspects only
`Ready` and `Resumed { heartbeat_interval, .. }`; every other event kind of
`model.rs` (not under `src/`) is opaque to this core and collapsed to
`Other`. -/
inductive Event where
  | Ready (r : ReadyEvent)
  | Resumed (heartbeat_interval : Nat)
  | Other (tag : String)
deriving DecidableEq, Repr

/-- Modelled from the spec: the decoder interface
`decode(bytes) -> GatewayEvent` with
`GatewayEvent ∈ {Dispatch(seq, Event), Heartbeat(seq), Reconnect,
InvalidateSession}` (spec section 6); the enum is declared in `model.rs`,
not under `src/`. -/
inductive GatewayEvent where
  | Dispatch (seq : Nat) (event : Event)
  | Heartbeat (seq : Nat)
  | Reconnect
  | InvalidateSession
deriving DecidableEq, Repr

/-- Commands of the keepalive command channel (the `Status` enum of
`internal.rs`, not under `src/`; variants and meanings are those of spec
section 3).  A transport writer is identified by a numeric id. -/
inductive Status where
  | SendMessage (val : Json)
  | Sequence (seq : Nat)
  | ChangeInterval (interval : Nat)
  | ChangeSender (sid : Nat)
deriving DecidableEq, Repr

/-- Observable effects of a run.  `wireSend sid j` is a `send_json` attempt on
the raw transport writer `sid`; `chanSend` is a keepalive-channel send whose
result the source discards; `resumeStart` / `reconnectStart` mark the entry of
`Connection::resume` / `Connection::reconnect` (the source's log lines);
`connectCall` marks `reconnect` invoking `Connection::new` on a URL;
`restFetch` marks the single REST `Discord::connect` call; `shutdownTransport`
is a `TcpStream::shutdown(Both)` attempt; `writerShutdown` is the keepalive
worker shutting its writer down on exit. -/
inductive Act where
  | openTransport (url : String)
  | wireSend (sid : Nat) (j : Json)
  | chanSend (s : Status)
  | spawnKeepalive (interval : Nat) (sid : Nat)
  | shutdownTransport
  | writerShutdown (sid : Nat)
  | sleepMs (n : Nat)
  | resumeStart
  | reconnectStart
  | connectCall (url : String)
  | restFetch
deriving DecidableEq, Repr

/-- Modelled from the spec: the compile-time protocol constant
`::GATEWAY_VERSION` of `lib.rs` (not under `src/`); the clean-open scenario of
spec section 8 fixes the expected protocol version at 6. -/
def GATEWAY_VERSION : Nat := 6

/-- Stands for `std::env::consts::OS`, the host platform name the source bakes
into the IDENTIFY payload. -/
def osName : String := "linux"

/-- Session state owned by the `Connection` orchestrator (the fields of the
struct in `connection.rs`; the receiver and the channel handle are represented
by the oracle/trace instead of by fields, and the `voice` feature is off). -/
structure Connection where
  ws_url : String
  token : String
  session_id : Option String
  last_sequence : Nat
deriving DecidableEq, Repr

/-- Oracle for one fresh transport: whether the
`Client::connect`/`send`/`validate` chain fails, the outcome of each
successive raw `send_json` (`none` = success; an exhausted list means
success), and the successive results of `recv_json` on the new receiver. -/
structure Wire where
  openErr : Option Error
  sendErrs : List (Option Error)
  frames : List (Except Error GatewayEvent)
deriving Repr

/-- Pop the outcome of the next raw send: an exhausted oracle list means the
send succeeds. -/
def popSend : List (Option Error) → Option Error × List (Option Error)
  | [] => (none, [])
  | e :: r => (e, r)

@[simp] theorem popSend_nil : popSend [] = (none, []) := rfl

@[simp] theorem popSend_cons (e : Option Error) (r : List (Option Error)) :
    popSend (e :: r) = (e, r) := rfl

/-- The IDENTIFY (op-2) payload built by `fn identify` in `connection.rs`. -/
def identify (token : String) : Json :=
  .obj (jf [("op", .num 2),
            ("d", .obj (jf [("token", .str token),
                            ("properties", .obj (jf [("$os", .str osName),
                                                     ("$browser", .str "Discord library for Rust"),
                                                     ("$device", .str "discord-rs"),
                                                     ("$referring_domain", .str ""),
                                                     ("$referrer", .str "")])),
                            ("v", .num GATEWAY_VERSION)]))])

/-- An op-1 heartbeat envelope carrying a sequence number, as built both by the
keepalive worker and by the server-heartbeat reply in `recv_event`. -/
def heartbeatJson (d : Nat) : Json :=
  .obj (jf [("op", .num 1), ("d", .num d)])

/-- The RESUME (op-6) payload built by `Connection::resume`. -/
def resumePayload (seq : Nat) (token session_id : String) : Json :=
  .obj (jf [("op", .num 6),
            ("d", .obj (jf [("seq", .num seq),
                            ("token", .str token),
                            ("session_id", .str session_id)]))])

/-- The URL string handed to `Url::parse`: the configured URL with
`?v=<GATEWAY_VERSION>` appended, as in `Connection::new` and
`Connection::resume`. -/
def versionedUrl (base : String) : String :=
  base ++ "?v=" ++ toString GATEWAY_VERSION

/-- The read loop of `Connection::new` after IDENTIFY was sent: consumes
`recv_json` results until a `Dispatch` carrying `Ready` arrives (returning its
sequence and snapshot), re-sending IDENTIFY on `InvalidateSession`, failing
with `Protocol` on any other frame, and propagating receive/send errors. -/
def connectLoop (token : String) (sid : Nat) :
    List (Option Error) → List (Except Error GatewayEvent) →
    Except Error (Nat × ReadyEvent) × List Act
  | _, [] => (.error (.Other "wire exhausted"), [])
  | _, .error e :: _ => (.error e, [])
  | _, .ok (.Dispatch seq (.Ready ev)) :: _ => (.ok (seq, ev), [])
  | se, .ok .InvalidateSession :: fs =>
    match (popSend se).1 with
    | some e => (.error e, [Act.wireSend sid (identify token)])
    | none =>
      let r := connectLoop token sid (popSend se).2 fs
      (r.1, Act.wireSend sid (identify token) :: r.2)
  | _, .ok (.Dispatch _ (.Resumed _)) :: _ =>
    (.error (.Protocol "Unexpected event during connection open"), [])
  | _, .ok (.Dispatch _ (.Other _)) :: _ =>
    (.error (.Protocol "Unexpected event during connection open"), [])
  | _, .ok (.Heartbeat _) :: _ =>
    (.error (.Protocol "Unexpected event during connection open"), [])
  | _, .ok .Reconnect :: _ =>
    (.error (.Protocol "Unexpected event during connection open"), [])

/-- Embedding of `Connection::new(base_url, token)`: parse the versioned URL
(else fail with the source's `Error::Other("Invalid URL in Connection::new()")`
before any transport is touched), open the transport, send IDENTIFY, run the
read loop, then spawn the keepalive worker with the READY's
`heartbeat_interval` and return the `Connection` holding
`Some(ready.session_id)` and the READY's sequence.  `parse` is the oracle for
the external `Url::parse`; `sid` identifies the fresh writer half. -/
def connect (base_url token : String) (parse : String → Bool) (w : Wire) (sid : Nat) :
    Except Error (Connection × ReadyEvent) × List Act :=
  if parse (versionedUrl base_url) then
    match w.openErr with
    | some e => (.error e, [Act.openTransport (versionedUrl base_url)])
    | none =>
      match (popSend w.sendErrs).1 with
      | some e =>
        (.error e, [Act.openTransport (versionedUrl base_url), Act.wireSend sid (identify token)])
      | none =>
        let r := connectLoop token sid (popSend w.sendErrs).2 w.frames
        let acts := Act.openTransport (versionedUrl base_url) :: Act.wireSend sid (identify token) :: r.2
        match r.1 with
        | .error e => (.error e, acts)
        | .ok (seq, ev) =>
          (.ok ({ ws_url := base_url, token := token,
                  session_id := some ev.session_id, last_sequence := seq }, ev),
           acts ++ [Act.spawnKeepalive ev.heartbeat_interval sid])
  else
    (.error (.Other "Invalid URL in Connection::new()"), [])

/-- Local state of the keepalive worker `fn keepalive`: the current heartbeat
interval (the timer's period), the writer it owns, and its mirror of
`last_sequence`, which starts at 0 when the worker is spawned. -/
structure KState where
  interval : Nat
  senderId : Nat
  last_sequence : Nat
deriving DecidableEq, Repr

/-- Apply one drained command, as the worker's inner `match channel.try_recv()`
does: `SendMessage` sends on the current writer (send errors are logged and
ignored), `Sequence` updates the mirror, `ChangeInterval` replaces the timer,
`ChangeSender` adopts a new writer. -/
def applyCmd (st : KState) : Status → KState × List Act
  | .SendMessage v => (st, [Act.wireSend st.senderId v])
  | .Sequence n => ({ st with last_sequence := n }, [])
  | .ChangeInterval i => ({ st with interval := i }, [])
  | .ChangeSender s => ({ st with senderId := s }, [])

/-- Drain a queue of commands in FIFO order (the inner loop until
`TryRecvError::Empty`). -/
def drainCmds (st : KState) : List Status → KState × List Act
  | [] => (st, [])
  | c :: cs =>
    let r1 := applyCmd st c
    let r2 := drainCmds r1.1 cs
    (r2.1, r1.2 ++ r2.2)

/-- Oracle for one iteration of the keepalive outer loop: the commands the
non-blocking drain yields this time around, whether after them `try_recv`
reports `Disconnected` (rather than `Empty`), and whether `timer.check_tick()`
fires this iteration. -/
structure KIter where
  cmds : List Status
  disc : Bool
  tick : Bool
deriving Repr

/-- One iteration of the keepalive outer loop: sleep 100 ms, drain the
channel, and — unless the channel was observed disconnected, which breaks the
outer loop — emit an op-1 heartbeat with the current sequence mirror when the
timer ticks.  The returned flag is true when the worker exits. -/
def kIter (st : KState) (it : KIter) : KState × List Act × Bool :=
  let r := drainCmds st it.cmds
  if it.disc then (r.1, Act.sleepMs 100 :: r.2, true)
  else if it.tick then
    (r.1, Act.sleepMs 100 :: r.2 ++ [Act.wireSend r.1.senderId (heartbeatJson r.1.last_sequence)],
     false)
  else (r.1, Act.sleepMs 100 :: r.2, false)

/-- Run the keepalive outer loop over a schedule of iteration oracles.  On
exit (channel disconnected) the worker shuts down its writer and stops,
ignoring the rest of the schedule; a schedule that never disconnects is
processed in full with the exit flag false (the real loop would keep
running). -/
def keepaliveRun (st : KState) : List KIter → KState × List Act × Bool
  | [] => (st, [], false)
  | it :: its =>
    let r := kIter st it
    if r.2.2 then (r.1, r.2.1 ++ [Act.writerShutdown r.1.senderId], true)
    else
      let rest := keepaliveRun r.1 its
      (rest.1, r.2.1 ++ rest.2.1, rest.2.2)

/-- Embedding of `fn keepalive(interval, sender, channel)`: the worker starts
with the spawn-time interval, the writer it was handed, and a sequence mirror
of 0. -/
def keepalive (interval sid : Nat) (iters : List KIter) : KState × List Act × Bool :=
  keepaliveRun { interval := interval, senderId := sid, last_sequence := 0 } iters

/-- Payloads of the raw transport sends in a trace, in order. -/
def sentFrames : List Act → List Json
  | [] => []
  | Act.wireSend _ j :: r => j :: sentFrames r
  | _ :: r => sentFrames r

/-- The read loop of `Connection::resume` after RESUME was sent: on a
`Dispatch` adopt the new `session_id` when the event is a `Ready` (and only
then), record the sequence, and return the event as the first resumed event;
on `InvalidateSession` send IDENTIFY on the new writer and keep reading (the
held `session_id` is not touched); any other frame fails with `Protocol`;
receive/send errors propagate. -/
def resumeLoop (c : Connection) (sid : Nat) :
    List (Option Error) → List (Except Error GatewayEvent) →
    Except Error (Connection × Event) × List Act
  | _, [] => (.error (.Other "wire exhausted"), [])
  | _, .error e :: _ => (.error e, [])
  | _, .ok (.Dispatch seq event) :: _ =>
    match event with
    | .Ready rev =>
      (.ok ({ c with session_id := some rev.session_id, last_sequence := seq }, event), [])
    | _ => (.ok ({ c with last_sequence := seq }, event), [])
  | se, .ok .InvalidateSession :: fs =>
    match (popSend se).1 with
    | some e => (.error e, [Act.wireSend sid (identify c.token)])
    | none =>
      let r := resumeLoop c sid (popSend se).2 fs
      (r.1, Act.wireSend sid (identify c.token) :: r.2)
  | _, .ok (.Heartbeat _) :: _ => (.error (.Protocol "Unexpected event during resume"), [])
  | _, .ok .Reconnect :: _ => (.error (.Protocol "Unexpected event during resume"), [])

/-- Body of `Connection::resume` after the entry log line and the shutdown
attempt on the old transport: parse the versioned URL (else fail with the
source's `Error::Other("Invalid URL in Connection::resume()")`), open a new
transport, send the RESUME (op-6) payload built from the current
`last_sequence`, the token and the passed `session_id`, run the read loop, and
on success install the new receiver and hand the new writer to the keepalive
worker via `ChangeSender`.  On every failure path `self` is unchanged. -/
def resumeBody (c : Connection) (session_id : String) (w : Wire) (sid : Nat)
    (parse : String → Bool) : Except Error Event × Connection × List Act :=
  if parse (versionedUrl c.ws_url) then
    match w.openErr with
    | some e => (.error e, c, [Act.openTransport (versionedUrl c.ws_url)])
    | none =>
      match (popSend w.sendErrs).1 with
      | some e =>
        (.error e, c,
         [Act.openTransport (versionedUrl c.ws_url),
          Act.wireSend sid (resumePayload c.last_sequence c.token session_id)])
      | none =>
        let r := resumeLoop c sid (popSend w.sendErrs).2 w.frames
        let acts := Act.openTransport (versionedUrl c.ws_url) ::
          Act.wireSend sid (resumePayload c.last_sequence c.token session_id) :: r.2
        match r.1 with
        | .error e => (.error e, c, acts)
        | .ok (c1, ev) => (.ok ev, c1, acts ++ [Act.chanSend (Status.ChangeSender sid)])
  else
    (.error (.Other "Invalid URL in Connection::resume()"), c, [])

/-- Embedding of `Connection::resume(session_id)`: log entry, shut the old
transport down in both directions (`closeErr` is the oracle for that shutdown;
its failure propagates), then run the body. -/
def resume (c : Connection) (session_id : String) (closeErr : Option Error) (w : Wire)
    (sid : Nat) (parse : String → Bool) : Except Error Event × Connection × List Act :=
  match closeErr with
  | some e => (.error e, c, [Act.resumeStart, Act.shutdownTransport])
  | none =>
    let r := resumeBody c session_id w sid parse
    (r.1, r.2.1, Act.resumeStart :: Act.shutdownTransport :: r.2.2)

/-- Oracle for one `Connection::reconnect` invocation: the wires (and fresh
writer ids) of the at most two cached-URL `Connection::new` attempts, the
outcome of the single REST `Discord::connect()` fallback (modelled from the
spec: the REST collaborator `fetch_gateway` of spec section 6 lives in
`lib.rs`, not under `src/`), and the outcome of the `shutdown()` of the
replaced old connection. -/
structure ReconnectOracle where
  wire1 : Wire
  sid1 : Nat
  wire2 : Wire
  sid2 : Nat
  rest : Except Error (Connection × ReadyEvent)
  shutdownErr : Option Error

/-- Success epilogue shared by all three arms of `reconnect`: `self` has
already been replaced by the fresh connection (`mem::replace`), the old
connection's `shutdown()` is attempted (its failure propagates with `self`
left as the fresh connection), and on success the new READY's `session_id` is
re-recorded before returning the READY. -/
def adoptConn (conn : Connection) (ready : ReadyEvent) (shutdownErr : Option Error)
    (acts : List Act) : Except Error ReadyEvent × Connection × List Act :=
  match shutdownErr with
  | some e => (.error e, conn, acts ++ [Act.shutdownTransport])
  | none =>
    (.ok ready, { conn with session_id := some ready.session_id },
     acts ++ [Act.shutdownTransport])

/-- Embedding of `Connection::reconnect`: log entry, then up to two
`Connection::new` attempts against the cached `ws_url` with a 1-second sleep
after each failed attempt, then — only if both failed — a single REST
`Discord::connect()` whose failure propagates.  Any success adopts the fresh
connection and shuts the old transport down. -/
def reconnect (c : Connection) (o : ReconnectOracle) (parse : String → Bool) :
    Except Error ReadyEvent × Connection × List Act :=
  let r1 := connect c.ws_url c.token parse o.wire1 o.sid1
  let acts1 := Act.reconnectStart :: Act.connectCall c.ws_url :: r1.2
  match r1.1 with
  | .ok (conn, ready) => adoptConn conn ready o.shutdownErr acts1
  | .error _ =>
    let r2 := connect c.ws_url c.token parse o.wire2 o.sid2
    let acts2 := acts1 ++ [Act.sleepMs 1000, Act.connectCall c.ws_url] ++ r2.2
    match r2.1 with
    | .ok (conn, ready) => adoptConn conn ready o.shutdownErr acts2
    | .error _ =>
      let acts3 := acts2 ++ [Act.sleepMs 1000, Act.restFetch]
      match o.rest with
      | .error e => (.error e, c, acts3)
      | .ok (conn, ready) => adoptConn conn ready o.shutdownErr acts3

/-- Oracle for the recovery paths reachable from one `recv_event` call: the
resume attempt's old-transport shutdown outcome, fresh wire and writer id, and
the reconnect oracle.  Along any single `recv_event` call each of `resume` and
`reconnect` runs at most once (both return immediately), so one oracle of each
suffices. -/
structure RecvEnv where
  resumeClose : Option Error
  resumeWire : Wire
  resumeSid : Nat
  rc : ReconnectOracle

/-- Shared tail of `recv_event`'s two reconnecting arms: run `reconnect` and
wrap its READY in `Event::Ready`. -/
def reconnectAsEvent (c : Connection) (env : RecvEnv) (parse : String → Bool) :
    Except Error Event × Connection × List Act :=
  let r := reconnect c env.rc parse
  (r.1.map Event.Ready, r.2.1, r.2.2)

/-- Recovery taken by `recv_event` on a websocket error and on a resumable
close: try `resume` when a `session_id` is held, returning its event on
success, and fall back to `reconnect` (mapped to `Event::Ready`) when no
session is held or the resume failed. -/
def recvRecover (c : Connection) (env : RecvEnv) (parse : String → Bool) :
    Except Error Event × Connection × List Act :=
  match c.session_id with
  | some sid =>
    let r := resume c sid env.resumeClose env.resumeWire env.resumeSid parse
    match r.1 with
    | .ok ev => (.ok ev, r.2.1, r.2.2)
    | .error _ =>
      let r2 := reconnect r.2.1 env.rc parse
      (r2.1.map Event.Ready, r2.2.1, r.2.2 ++ r2.2.2)
  | none => reconnectAsEvent c env parse

/-- Embedding of `Connection::recv_event`, consuming the receiver's successive
`recv_json` results: a websocket error recovers via resume-then-reconnect; a
`Closed(code, _)` recovers the same way unless `code` is `Some 1000` or
`Some 4006`, in which case it goes straight to `reconnect`; other errors
propagate; a `Dispatch` records and forwards the sequence (adding a
`ChangeInterval` when the event is `Resumed`) and returns the event; a
server `Heartbeat` is answered through the keepalive channel and the read
recurses; `Reconnect` runs `reconnect`; `InvalidateSession` clears
`session_id`, enqueues a fresh IDENTIFY and recurses. -/
def recv_event (c : Connection) (env : RecvEnv) (parse : String → Bool) :
    List (Except Error GatewayEvent) → Except Error Event × Connection × List Act
  | [] => (.error (.Other "wire exhausted"), c, [])
  | .error (.WebSocket _) :: _ => recvRecover c env parse
  | .error (.Closed num _) :: _ =>
    if num ≠ some 1000 ∧ num ≠ some 4006 then recvRecover c env parse
    else reconnectAsEvent c env parse
  | .error (.Protocol m) :: _ => (.error (.Protocol m), c, [])
  | .error (.Other m) :: _ => (.error (.Other m), c, [])
  | .ok (.Dispatch seq event) :: _ =>
    (.ok event, { c with last_sequence := seq },
     Act.chanSend (Status.Sequence seq) ::
       (match event with
        | .Resumed hi => [Act.chanSend (Status.ChangeInterval hi)]
        | _ => []))
  | .ok (.Heartbeat seq) :: fs =>
    let r := recv_event c env parse fs
    (r.1, r.2.1, Act.chanSend (Status.SendMessage (heartbeatJson seq)) :: r.2.2)
  | .ok .Reconnect :: _ => reconnectAsEvent c env parse
  | .ok .InvalidateSession :: fs =>
    let r := recv_event { c with session_id := none } env parse fs
    (r.1, r.2.1, Act.chanSend (Status.SendMessage (identify c.token)) :: r.2.2)

/-- Modelled from the spec: the `Game` struct of `model.rs` (not under
`src/`); `set_game` serializes only its `name`. -/
structure Game where
  name : String
deriving DecidableEq, Repr

/-- Modelled from the spec: `Game::playing(name)` builds a game with defaults
for any extended information; only the name reaches the op-3 payload. -/
def Game.playing (name : String) : Game :=
  { name := name }

/-- The op-3 presence payload built by `Connection::set_game`. -/
def setGameJson (game : Option Game) : Json :=
  .obj (jf [("op", .num 3),
            ("d", .obj (jf [("idle_since", .null),
                            ("game", match game with
                                     | some g => .obj (jf [("name", .str g.name)])
                                     | none => .null)]))])

/-- Modelled from the spec: the numeric `ServerId` newtype of `model.rs` (not
under `src/`); `__download_members` serializes its inner number. -/
structure ServerId where
  id : Nat
deriving DecidableEq, Repr

/-- The op-8 request-guild-members payload built by
`Connection::__download_members`. -/
def downloadMembersJson (servers : List ServerId) : Json :=
  .obj (jf [("op", .num 8),
            ("d", .obj (jf [("guild_id", .natArr (servers.map ServerId.id)),
                            ("query", .str ""),
                            ("limit", .num 0)]))])

/-- Embedding of `Connection::set_game`: borrow `self` immutably, build the
op-3 payload and enqueue it on the keepalive channel, discarding the send
result (`let _ = ...`); `alive` models whether the worker still holds the
channel's receiving end and is ignored exactly as the source ignores the send
result. -/
def set_game (c : Connection) (alive : Bool) (game : Option Game) : Connection × List Act :=
  (c, [Act.chanSend (Status.SendMessage (setGameJson game))])

/-- Embedding of `Connection::set_game_name`: delegate to `set_game` with
`Game::playing`. -/
def set_game_name (c : Connection) (alive : Bool) (name : String) : Connection × List Act :=
  set_game c alive (some (Game.playing name))

/-- Embedding of `Connection::__download_members`: borrow `self` immutably,
build the op-8 payload and enqueue it, discarding the send result. -/
def __download_members (c : Connection) (alive : Bool) (servers : List ServerId) :
    Connection × List Act :=
  (c, [Act.chanSend (Status.SendMessage (downloadMembersJson servers))])

/-- Trace of the `Connection::new` read loop consists only of raw IDENTIFY
re-sends on the fresh writer. -/
theorem connectLoop_acts (token : String) (sid : Nat) :
    ∀ (fs : List (Except Error GatewayEvent)) (se : List (Option Error)) (a : Act),
      a ∈ (connectLoop token sid se fs).2 → a = Act.wireSend sid (identify token) := by
  intro fs
  induction fs with
  | nil => intro se a h; simp [connectLoop] at h
  | cons f fs ih =>
    intro se a h
    match f with
    | .error e => simp [connectLoop] at h
    | .ok (.Dispatch seq (.Ready ev)) => simp [connectLoop] at h
    | .ok (.Dispatch seq (.Resumed hi)) => simp [connectLoop] at h
    | .ok (.Dispatch seq (.Other t)) => simp [connectLoop] at h
    | .ok (.Heartbeat s) => simp [connectLoop] at h
    | .ok .Reconnect => simp [connectLoop] at h
    | .ok .InvalidateSession =>
      match se with
      | [] =>
        simp only [connectLoop, popSend_nil, List.mem_cons] at h
        rcases h with h | h
        · exact h
        · exact ih [] a h
      | some e :: r =>
        simp only [connectLoop, popSend_cons, List.mem_cons, List.not_mem_nil, or_false] at h
        exact h
      | none :: r =>
        simp only [connectLoop, popSend_cons, List.mem_cons] at h
        rcases h with h | h
        · exact h
        · exact ih r a h

/-- Classification of the acts a fresh `Connection::new` run can emit: a
transport open, a raw send, or the keepalive spawn. -/
def isHandshakeAct : Act → Bool
  | .openTransport _ => true
  | .wireSend _ _ => true
  | .spawnKeepalive _ _ => true
  | _ => false

/-- Every act of a `Connection::new` run is a handshake act. -/
theorem connect_acts (base_url token : String) (parse : String → Bool) (w : Wire) (sid : Nat) :
    ∀ a ∈ (connect base_url token parse w sid).2, isHandshakeAct a = true := by
  have hloop : ∀ a ∈ (connectLoop token sid (popSend w.sendErrs).2 w.frames).2,
      isHandshakeAct a = true := by
    intro a ha
    rw [connectLoop_acts token sid w.frames (popSend w.sendErrs).2 a ha]
    rfl
  unfold connect
  by_cases hp : parse (versionedUrl base_url) = true
  · rw [if_pos hp]
    cases hoe : w.openErr with
    | some e => simp [hoe, isHandshakeAct]
    | none =>
      simp only [hoe]
      cases hfe : (popSend w.sendErrs).1 with
      | some e => simp [hfe, isHandshakeAct]
      | none =>
        simp only [hfe]
        cases hr : (connectLoop token sid (popSend w.sendErrs).2 w.frames).1 with
        | error e =>
          simp only [hr, List.forall_mem_cons]
          exact ⟨rfl, rfl, hloop⟩
        | ok pair =>
          rcases pair with ⟨seq, ev⟩
          simp only [hr]
          intro a ha
          simp only [List.cons_append, List.mem_cons, List.mem_append,
            List.mem_singleton] at ha
          rcases ha with rfl | rfl | ha | rfl | ha
          · rfl
          · rfl
          · exact hloop a ha
          · rfl
          · exact absurd ha (List.not_mem_nil a)
  · rw [if_neg hp]
    simp

/-- Trace of the shared success epilogue: the given prefix followed by the
old-transport shutdown attempt. -/
theorem adoptConn_acts (conn : Connection) (ready : ReadyEvent) (shutdownErr : Option Error)
    (acts : List Act) :
    (adoptConn conn ready shutdownErr acts).2.2 = acts ++ [Act.shutdownTransport] := by
  cases shutdownErr <;> rfl

/-- Case analysis of a `reconnect` run: first cached attempt succeeds, second
cached attempt succeeds, or both fail and the REST fallback decides. -/
theorem reconnect_cases (c : Connection) (o : ReconnectOracle) (parse : String → Bool) :
    (∃ conn ready, (connect c.ws_url c.token parse o.wire1 o.sid1).1 = .ok (conn, ready) ∧
       reconnect c o parse = adoptConn conn ready o.shutdownErr
         (Act.reconnectStart :: Act.connectCall c.ws_url ::
           (connect c.ws_url c.token parse o.wire1 o.sid1).2)) ∨
    (∃ e1 conn ready, (connect c.ws_url c.token parse o.wire1 o.sid1).1 = .error e1 ∧
       (connect c.ws_url c.token parse o.wire2 o.sid2).1 = .ok (conn, ready) ∧
       reconnect c o parse = adoptConn conn ready o.shutdownErr
         (Act.reconnectStart :: Act.connectCall c.ws_url ::
           (connect c.ws_url c.token parse o.wire1 o.sid1).2 ++
           [Act.sleepMs 1000, Act.connectCall c.ws_url] ++
           (connect c.ws_url c.token parse o.wire2 o.sid2).2)) ∨
    (∃ e1 e2, (connect c.ws_url c.token parse o.wire1 o.sid1).1 = .error e1 ∧
       (connect c.ws_url c.token parse o.wire2 o.sid2).1 = .error e2 ∧
       ((∃ e, o.rest = .error e ∧
           reconnect c o parse = (.error e, c,
             Act.reconnectStart :: Act.connectCall c.ws_url ::
               (connect c.ws_url c.token parse o.wire1 o.sid1).2 ++
               [Act.sleepMs 1000, Act.connectCall c.ws_url] ++
               (connect c.ws_url c.token parse o.wire2 o.sid2).2 ++
               [Act.sleepMs 1000, Act.restFetch])) ∨
        (∃ conn ready, o.rest = .ok (conn, ready) ∧
           reconnect c o parse = adoptConn conn ready o.shutdownErr
             (Act.reconnectStart :: Act.connectCall c.ws_url ::
               (connect c.ws_url c.token parse o.wire1 o.sid1).2 ++
               [Act.sleepMs 1000, Act.connectCall c.ws_url] ++
               (connect c.ws_url c.token parse o.wire2 o.sid2).2 ++
               [Act.sleepMs 1000, Act.restFetch])))) := by
  cases h1 : (connect c.ws_url c.token parse o.wire1 o.sid1).1 with
  | ok pair =>
    rcases pair with ⟨conn, ready⟩
    exact Or.inl ⟨conn, ready, rfl, by simp only [reconnect, h1]⟩
  | error e1 =>
    cases h2 : (connect c.ws_url c.token parse o.wire2 o.sid2).1 with
    | ok pair =>
      rcases pair with ⟨conn, ready⟩
      exact Or.inr (Or.inl ⟨e1, conn, ready, rfl, rfl, by simp only [reconnect, h1, h2]⟩)
    | error e2 =>
      cases hr : o.rest with
      | ok pair =>
        rcases pair with ⟨conn, ready⟩
        exact Or.inr (Or.inr ⟨e1, e2, rfl, rfl,
          Or.inr ⟨conn, ready, rfl, by simp only [reconnect, h1, h2, hr]⟩⟩)
      | error e =>
        exact Or.inr (Or.inr ⟨e1, e2, rfl, rfl,
          Or.inl ⟨e, rfl, by simp only [reconnect, h1, h2, hr]⟩⟩)

/-- The `resume` entry mark never occurs in a `reconnect` trace. -/
theorem resumeStart_not_reconnect (c : Connection) (o : ReconnectOracle)
    (parse : String → Bool) : Act.resumeStart ∉ (reconnect c o parse).2.2 := by
  have hc1 := connect_acts c.ws_url c.token parse o.wire1 o.sid1
  have hc2 := connect_acts c.ws_url c.token parse o.wire2 o.sid2
  intro h
  rcases reconnect_cases c o parse with
    ⟨conn, ready, h1, heq⟩ | ⟨e1, conn, ready, h1, h2, heq⟩ |
    ⟨e1, e2, h1, h2, ⟨e, hr, heq⟩ | ⟨conn, ready, hr, heq⟩⟩
  · rw [heq, adoptConn_acts] at h
    simp at h
    simpa [isHandshakeAct] using hc1 _ h
  · rw [heq, adoptConn_acts] at h
    simp at h
    rcases h with h | h
    · simpa [isHandshakeAct] using hc1 _ h
    · simpa [isHandshakeAct] using hc2 _ h
  · rw [heq] at h
    simp at h
    rcases h with h | h
    · simpa [isHandshakeAct] using hc1 _ h
    · simpa [isHandshakeAct] using hc2 _ h
  · rw [heq, adoptConn_acts] at h
    simp at h
    rcases h with h | h
    · simpa [isHandshakeAct] using hc1 _ h
    · simpa [isHandshakeAct] using hc2 _ h

/-- The trace of a `resume` run starts with the entry mark followed by the
old-transport shutdown attempt. -/
theorem resume_trace_head (c : Connection) (session_id : String) (closeErr : Option Error)
    (w : Wire) (sid : Nat) (parse : String → Bool) :
    ∃ tl, (resume c session_id closeErr w sid parse).2.2 =
      Act.resumeStart :: Act.shutdownTransport :: tl := by
  cases closeErr with
  | none => exact ⟨_, rfl⟩
  | some e => exact ⟨_, rfl⟩

/-- The trace of a `reconnect` run starts with the entry mark followed by the
first cached-URL `Connection::new` call mark. -/
theorem reconnect_trace_head (c : Connection) (o : ReconnectOracle) (parse : String → Bool) :
    ∃ tl, (reconnect c o parse).2.2 =
      Act.reconnectStart :: Act.connectCall c.ws_url :: tl := by
  rcases reconnect_cases c o parse with
    ⟨conn, ready, h1, heq⟩ | ⟨e1, conn, ready, h1, h2, heq⟩ |
    ⟨e1, e2, h1, h2, ⟨e, hr, heq⟩ | ⟨conn, ready, hr, heq⟩⟩ <;>
    rw [heq]
  · rw [adoptConn_acts]
    exact ⟨_, rfl⟩
  · rw [adoptConn_acts]
    exact ⟨_, rfl⟩
  · exact ⟨_, rfl⟩
  · rw [adoptConn_acts]
    exact ⟨_, rfl⟩

/-- Successful values of a reconnect result wrapped by `Event::Ready`. -/
theorem map_ready_ok (r : Except Error ReadyEvent) (e : Event)
    (h : r.map Event.Ready = .ok e) : ∃ rd, r = .ok rd ∧ e = Event.Ready rd := by
  cases r with
  | error e2 => simp [Except.map] at h
  | ok rd =>
    simp [Except.map] at h
    exact ⟨rd, rfl, h.symm⟩

/-- Unfolding of `recv_event` on a peer close: the close-code gate decides
between the resume-then-reconnect recovery and plain reconnect. -/
theorem recv_event_closed (c : Connection) (env : RecvEnv) (parse : String → Bool)
    (num : Option Nat) (msg : String) (fs : List (Except Error GatewayEvent)) :
    recv_event c env parse (.error (.Closed num msg) :: fs) =
      if num ≠ some 1000 ∧ num ≠ some 4006 then recvRecover c env parse
      else reconnectAsEvent c env parse := rfl

/-- Facts about `reconnectAsEvent`: its trace is the reconnect trace (so it
starts with the reconnect mark and never contains the resume mark) and any
successful return is an `Event::Ready`. -/
theorem reconnectAsEvent_facts (c : Connection) (env : RecvEnv) (parse : String → Bool) :
    (∃ tl, (reconnectAsEvent c env parse).2.2 =
       Act.reconnectStart :: Act.connectCall c.ws_url :: tl) ∧
    Act.resumeStart ∉ (reconnectAsEvent c env parse).2.2 ∧
    (∀ e, (reconnectAsEvent c env parse).1 = .ok e → ∃ rd, e = Event.Ready rd) := by
  refine ⟨?_, ?_, ?_⟩
  · exact reconnect_trace_head c env.rc parse
  · exact resumeStart_not_reconnect c env.rc parse
  · intro e he
    obtain ⟨rd, _, h2⟩ := map_ready_ok (reconnect c env.rc parse).1 e he
    exact ⟨rd, h2⟩

/-- Facts about `recvRecover` when a session is held: its trace starts with
the resume entry mark, and any successful return is either the resume's own
success or an `Event::Ready` from the fallback reconnect. -/
theorem recvRecover_some (c : Connection) (env : RecvEnv) (parse : String → Bool) (sid : String)
    (hs : c.session_id = some sid) :
    (∃ tl, (recvRecover c env parse).2.2 =
       Act.resumeStart :: Act.shutdownTransport :: tl) ∧
    (∀ e, (recvRecover c env parse).1 = .ok e →
      (resume c sid env.resumeClose env.resumeWire env.resumeSid parse).1 = .ok e ∨
        ∃ rd, e = Event.Ready rd) := by
  unfold recvRecover
  rw [hs]
  obtain ⟨tl, htl⟩ := resume_trace_head c sid env.resumeClose env.resumeWire env.resumeSid parse
  cases hr : (resume c sid env.resumeClose env.resumeWire env.resumeSid parse).1 with
  | ok ev =>
    simp only [hr]
    refine ⟨⟨tl, htl⟩, ?_⟩
    intro e he
    exact Or.inl he
  | error er =>
    simp only [hr]
    constructor
    · rw [htl]
      exact ⟨tl ++ (reconnect (resume c sid env.resumeClose env.resumeWire env.resumeSid
          parse).2.1 env.rc parse).2.2, rfl⟩
    · intro e he
      obtain ⟨rd, _, h2⟩ := map_ready_ok _ e he
      exact Or.inr ⟨rd, h2⟩

/-- C1: when `recv_event` observes a `Closed(code, _)` error, a resume is
attempted — the trace opens with the resume entry mark, before any reconnect —
if and only if the code is not 1000, not 4006 and a `session_id` is held;
otherwise the trace opens with the reconnect mark and contains no resume mark;
and any successful return is the resumed event or an `Event::Ready`
snapshot. -/
theorem recv_closed_resume_gate (c : Connection) (env : RecvEnv) (parse : String → Bool)
    (num : Option Nat) (msg : String) (fs : List (Except Error GatewayEvent)) :
    ((num ≠ some 1000 ∧ num ≠ some 4006 ∧ c.session_id ≠ none) →
       ∃ tl, (recv_event c env parse (.error (.Closed num msg) :: fs)).2.2 =
         Act.resumeStart :: Act.shutdownTransport :: tl) ∧
    (¬(num ≠ some 1000 ∧ num ≠ some 4006 ∧ c.session_id ≠ none) →
       (∃ tl, (recv_event c env parse (.error (.Closed num msg) :: fs)).2.2 =
          Act.reconnectStart :: Act.connectCall c.ws_url :: tl) ∧
       Act.resumeStart ∉ (recv_event c env parse (.error (.Closed num msg) :: fs)).2.2) ∧
    (Act.resumeStart ∈ (recv_event c env parse (.error (.Closed num msg) :: fs)).2.2 ↔
       (num ≠ some 1000 ∧ num ≠ some 4006 ∧ c.session_id ≠ none)) ∧
    (∀ e, (recv_event c env parse (.error (.Closed num msg) :: fs)).1 = .ok e →
       (∃ sid, c.session_id = some sid ∧
         (resume c sid env.resumeClose env.resumeWire env.resumeSid parse).1 = .ok e) ∨
       ∃ rd, e = Event.Ready rd) := by
  rw [recv_event_closed]
  by_cases hgate : num ≠ some 1000 ∧ num ≠ some 4006
  · rw [if_pos hgate]
    cases hs : c.session_id with
    | none =>
      obtain ⟨⟨tl, htl⟩, hnomem, hok⟩ := reconnectAsEvent_facts c env parse
      have hrr : recvRecover c env parse = reconnectAsEvent c env parse := by
        unfold recvRecover
        rw [hs]
      rw [hrr]
      refine ⟨fun hcontra => absurd rfl hcontra.2.2, fun _ => ⟨⟨tl, htl⟩, hnomem⟩, ?_, ?_⟩
      · constructor
        · intro hmem
          exact absurd hmem hnomem
        · intro hcond
          exact absurd rfl hcond.2.2
      · intro e he
        exact Or.inr (hok e he)
    | some sid =>
      obtain ⟨⟨tl, htl⟩, hres⟩ := recvRecover_some c env parse sid hs
      have hcond : num ≠ some 1000 ∧ num ≠ some 4006 ∧ some sid ≠ (none : Option String) :=
        ⟨hgate.1, hgate.2, by simp⟩
      refine ⟨fun _ => ⟨tl, htl⟩, fun hneg => absurd hcond hneg, ?_, ?_⟩
      · constructor
        · intro _
          exact hcond
        · intro _
          rw [htl]
          simp
      · intro e he
        rcases hres e he with h | h
        · exact Or.inl ⟨sid, rfl, h⟩
        · exact Or.inr h
  · rw [if_neg hgate]
    obtain ⟨⟨tl, htl⟩, hnomem, hok⟩ := reconnectAsEvent_facts c env parse
    refine ⟨fun hcontra => absurd ⟨hcontra.1, hcontra.2.1⟩ hgate,
      fun _ => ⟨⟨tl, htl⟩, hnomem⟩, ?_, fun e he => Or.inr (hok e he)⟩
    constructor
    · intro hmem
      exact absurd hmem hnomem
    · intro hcond
      exact absurd ⟨hcond.1, hcond.2.1⟩ hgate

/-- Witness for C1: on a concrete connection holding session "S", a close with
code 4000 opens its trace with the resume mark. -/
theorem recv_closed_resume_gate_witness :
    ∃ tl, (recv_event ⟨"wss://gw", "T", some "S", 5⟩
        ⟨none, ⟨none, [], []⟩, 1, ⟨⟨none, [], []⟩, 2, ⟨none, [], []⟩, 3,
          .error (.Other "rest down"), none⟩⟩
        (fun _ => true) [.error (.Closed (some 4000) "oops")]).2.2 =
      Act.resumeStart :: Act.shutdownTransport :: tl :=
  (recv_closed_resume_gate ⟨"wss://gw", "T", some "S", 5⟩
      ⟨none, ⟨none, [], []⟩, 1, ⟨⟨none, [], []⟩, 2, ⟨none, [], []⟩, 3,
        .error (.Other "rest down"), none⟩⟩
      (fun _ => true) (some 4000) "oops" []).1 (by decide)

/-- C10: when `recv_event` observes a `Closed` error with an absent close code
while a `session_id` is held, the recovery trace opens with the resume entry
mark — the code-less close is classified as resumable and resume is attempted
before any reconnect. -/
theorem recv_closed_nocode_resumes (c : Connection) (env : RecvEnv) (parse : String → Bool)
    (sid : String) (msg : String) (fs : List (Except Error GatewayEvent))
    (hs : c.session_id = some sid) :
    (∃ tl, (recv_event c env parse (.error (.Closed none msg) :: fs)).2.2 =
       Act.resumeStart :: Act.shutdownTransport :: tl) ∧
    Act.resumeStart ∈ (recv_event c env parse (.error (.Closed none msg) :: fs)).2.2 := by
  have hgate : (none : Option Nat) ≠ some 1000 ∧ (none : Option Nat) ≠ some 4006 := by
    simp
  rw [recv_event_closed, if_pos hgate]
  obtain ⟨⟨tl, htl⟩, _⟩ := recvRecover_some c env parse sid hs
  refine ⟨⟨tl, htl⟩, ?_⟩
  rw [htl]
  simp

/-- Witness for C10: a concrete code-less close on a connection holding
session "S" opens its trace with the resume mark. -/
theorem recv_closed_nocode_resumes_witness :
    ∃ tl, (recv_event ⟨"wss://gw", "T", some "S", 5⟩
        ⟨none, ⟨none, [], []⟩, 1, ⟨⟨none, [], []⟩, 2, ⟨none, [], []⟩, 3,
          .error (.Other "rest down"), none⟩⟩
        (fun _ => true) [.error (.Closed none "gone")]).2.2 =
      Act.resumeStart :: Act.shutdownTransport :: tl :=
  (recv_closed_nocode_resumes ⟨"wss://gw", "T", some "S", 5⟩
      ⟨none, ⟨none, [], []⟩, 1, ⟨⟨none, [], []⟩, 2, ⟨none, [], []⟩, 3,
        .error (.Other "rest down"), none⟩⟩
      (fun _ => true) "S" "gone" [] rfl).1

/-- C4: when the configured URL with `?v=<version>` appended is rejected by
the URL parser, `connect` fails with the source's invalid-URL error (the
spec's `InvalidUrl` kind, encoded as `Error::Other("Invalid URL in
Connection::new()")`), `resume` over the same stored URL fails with its
invalid-URL error, both surface the error to their caller, and neither opens
any transport. -/
theorem invalid_url_fatal (base token : String) (parse : String → Bool) (w : Wire)
    (sid : Nat) (c : Connection) (held : String)
    (h1 : parse (versionedUrl base) = false)
    (h2 : parse (versionedUrl c.ws_url) = false) :
    connect base token parse w sid =
      (.error (.Other "Invalid URL in Connection::new()"), []) ∧
    (∀ u, Act.openTransport u ∉ (connect base token parse w sid).2) ∧
    resume c held none w sid parse =
      (.error (.Other "Invalid URL in Connection::resume()"), c,
       [Act.resumeStart, Act.shutdownTransport]) ∧
    (∀ u, Act.openTransport u ∉ (resume c held none w sid parse).2.2) := by
  have hc : connect base token parse w sid =
      (.error (.Other "Invalid URL in Connection::new()"), []) := by
    unfold connect
    rw [if_neg (by simp [h1])]
  have hb : resumeBody c held w sid parse =
      (.error (.Other "Invalid URL in Connection::resume()"), c, []) := by
    unfold resumeBody
    rw [if_neg (by simp [h2])]
  have hr : resume c held none w sid parse =
      (.error (.Other "Invalid URL in Connection::resume()"), c,
       [Act.resumeStart, Act.shutdownTransport]) := by
    unfold resume
    rw [hb]
  refine ⟨hc, ?_, hr, ?_⟩
  · intro u hu
    rw [hc] at hu
    simp at hu
  · intro u hu
    rw [hr] at hu
    simp at hu

/-- Witness for C4: with a parser rejecting everything, `connect` and `resume`
fail with their invalid-URL errors and empty-of-open traces. -/
theorem invalid_url_fatal_witness :
    connect "]bad" "T" (fun _ => false) ⟨none, [], []⟩ 0 =
      (.error (.Other "Invalid URL in Connection::new()"), []) ∧
    resume ⟨"]bad", "T", some "S", 7⟩ "S" none ⟨none, [], []⟩ 0 (fun _ => false) =
      (.error (.Other "Invalid URL in Connection::resume()"),
       ⟨"]bad", "T", some "S", 7⟩, [Act.resumeStart, Act.shutdownTransport]) :=
  ⟨(invalid_url_fatal "]bad" "T" (fun _ => false) ⟨none, [], []⟩ 0
      ⟨"]bad", "T", some "S", 7⟩ "S" rfl rfl).1,
   (invalid_url_fatal "]bad" "T" (fun _ => false) ⟨none, [], []⟩ 0
      ⟨"]bad", "T", some "S", 7⟩ "S" rfl rfl).2.2.1⟩

/-- Opcode of the IDENTIFY payload. -/
theorem jsonOp_identify (t : String) : jsonOp (identify t) = some (.num 2) := rfl

/-- Opcode of the RESUME payload. -/
theorem jsonOp_resumePayload (s : Nat) (t sess : String) :
    jsonOp (resumePayload s t sess) = some (.num 6) := rfl

/-- Trace of the `Connection::resume` read loop consists only of raw IDENTIFY
re-sends on the new writer. -/
theorem resumeLoop_acts (c : Connection) (sid : Nat) :
    ∀ (fs : List (Except Error GatewayEvent)) (se : List (Option Error)) (a : Act),
      a ∈ (resumeLoop c sid se fs).2 → a = Act.wireSend sid (identify c.token) := by
  intro fs
  induction fs with
  | nil => intro se a h; simp [resumeLoop] at h
  | cons f fs ih =>
    intro se a h
    match f with
    | .error e => simp [resumeLoop] at h
    | .ok (.Dispatch seq event) => cases event <;> simp [resumeLoop] at h
    | .ok (.Heartbeat s) => simp [resumeLoop] at h
    | .ok .Reconnect => simp [resumeLoop] at h
    | .ok .InvalidateSession =>
      match se with
      | [] =>
        simp only [resumeLoop, popSend_nil, List.mem_cons] at h
        rcases h with h | h
        · exact h
        · exact ih [] a h
      | some e :: r =>
        simp only [resumeLoop, popSend_cons, List.mem_cons, List.not_mem_nil, or_false] at h
        exact h
      | none :: r =>
        simp only [resumeLoop, popSend_cons, List.mem_cons] at h
        rcases h with h | h
        · exact h
        · exact ih r a h

/-- Unfolding of `recv_event` on a websocket error: recovery via
resume-then-reconnect. -/
theorem recv_event_ws (c : Connection) (env : RecvEnv) (parse : String → Bool)
    (msg : String) (fs : List (Except Error GatewayEvent)) :
    recv_event c env parse (.error (.WebSocket msg) :: fs) = recvRecover c env parse := rfl

/-- C6: every RESUME frame `resume` sends is the op-6 envelope whose `d`
payload is exactly `{seq, token, session_id}` built from the orchestrator's
current `last_sequence`, the connection token and the held session id: the
frame is sent on the new wire, no other op-6 frame is ever sent, and the same
frame appears in the `recv_event` recovery trace when the held session is
passed down. -/
theorem resume_sends_op6 (c : Connection) (held : String) (w : Wire) (sid : Nat)
    (parse : String → Bool) (rc : ReconnectOracle) (msg : String)
    (fs : List (Except Error GatewayEvent))
    (hp : parse (versionedUrl c.ws_url) = true) (ho : w.openErr = none) :
    Act.wireSend sid (resumePayload c.last_sequence c.token held) ∈
      (resume c held none w sid parse).2.2 ∧
    (∀ s j, Act.wireSend s j ∈ (resume c held none w sid parse).2.2 →
       jsonOp j = some (.num 6) → j = resumePayload c.last_sequence c.token held) ∧
    resumePayload c.last_sequence c.token held =
      .obj (jf [("op", .num 6),
                ("d", .obj (jf [("seq", .num c.last_sequence),
                                ("token", .str c.token),
                                ("session_id", .str held)]))]) ∧
    (c.session_id = some held →
       Act.wireSend sid (resumePayload c.last_sequence c.token held) ∈
         (recv_event c ⟨none, w, sid, rc⟩ parse (.error (.WebSocket msg) :: fs)).2.2) := by
  have hbody : ∃ tl, (resumeBody c held w sid parse).2.2 =
      Act.openTransport (versionedUrl c.ws_url) ::
        Act.wireSend sid (resumePayload c.last_sequence c.token held) :: tl ∧
      ∀ a ∈ tl, a = Act.wireSend sid (identify c.token) ∨
        a = Act.chanSend (Status.ChangeSender sid) := by
    unfold resumeBody
    rw [if_pos hp]
    simp only [ho]
    cases hfe : (popSend w.sendErrs).1 with
    | some e =>
      simp only [hfe]
      exact ⟨[], rfl, by simp⟩
    | none =>
      simp only [hfe]
      cases hlr : (resumeLoop c sid (popSend w.sendErrs).2 w.frames).1 with
      | error e =>
        simp only [hlr]
        refine ⟨(resumeLoop c sid (popSend w.sendErrs).2 w.frames).2, rfl, ?_⟩
        intro a ha
        exact Or.inl (resumeLoop_acts c sid w.frames (popSend w.sendErrs).2 a ha)
      | ok pr =>
        rcases pr with ⟨c1, ev⟩
        simp only [hlr]
        refine ⟨(resumeLoop c sid (popSend w.sendErrs).2 w.frames).2 ++
          [Act.chanSend (Status.ChangeSender sid)], rfl, ?_⟩
        intro a ha
        rw [List.mem_append] at ha
        rcases ha with ha | ha
        · exact Or.inl (resumeLoop_acts c sid w.frames (popSend w.sendErrs).2 a ha)
        · exact Or.inr (List.mem_singleton.mp ha)
  obtain ⟨tl, htl, hall⟩ := hbody
  have key : (resume c held none w sid parse).2.2 =
      Act.resumeStart :: Act.shutdownTransport :: Act.openTransport (versionedUrl c.ws_url) ::
        Act.wireSend sid (resumePayload c.last_sequence c.token held) :: tl := by
    show Act.resumeStart :: Act.shutdownTransport :: (resumeBody c held w sid parse).2.2 = _
    rw [htl]
  have hmem1 : Act.wireSend sid (resumePayload c.last_sequence c.token held) ∈
      (resume c held none w sid parse).2.2 := by
    rw [key]
    simp
  refine ⟨hmem1, ?_, rfl, ?_⟩
  · intro s j hmem hop
    rw [key] at hmem
    simp only [List.mem_cons] at hmem
    rcases hmem with h | h | h | h | h
    · exact absurd h (by simp)
    · exact absurd h (by simp)
    · exact absurd h (by simp)
    · simp only [Act.wireSend.injEq] at h
      exact h.2
    · rcases hall _ h with h2 | h2
      · simp only [Act.wireSend.injEq] at h2
        rw [h2.2, jsonOp_identify] at hop
        simp at hop
      · simp at h2
  · intro hs
    rw [recv_event_ws]
    unfold recvRecover
    rw [hs]
    simp only
    cases hr : (resume c held none w sid parse).1 with
    | ok ev =>
      simp only [hr]
      exact hmem1
    | error er =>
      simp only [hr]
      exact List.mem_append_left _ hmem1

/-- Witness for C6: on a concrete resume over a live wire, the op-6 frame
carrying `{seq: 7, token: "T", session_id: "S1"}` is sent. -/
theorem resume_sends_op6_witness :
    Act.wireSend 1 (resumePayload 7 "T" "S1") ∈
      (resume ⟨"wss://gw", "T", some "S1", 7⟩ "S1" none
        ⟨none, [], [.ok (.Dispatch 8 (.Other "MESSAGE_CREATE"))]⟩ 1 (fun _ => true)).2.2 :=
  (resume_sends_op6 ⟨"wss://gw", "T", some "S1", 7⟩ "S1"
      ⟨none, [], [.ok (.Dispatch 8 (.Other "MESSAGE_CREATE"))]⟩ 1 (fun _ => true)
      ⟨⟨none, [], []⟩, 2, ⟨none, [], []⟩, 3, .error (.Other "rest down"), none⟩
      "ws" [] rfl rfl).1

/-- C3 counterexample: during `resume`, an `InvalidateSession` frame makes the
loop re-send IDENTIFY on the raw writer, but `session_id` is NOT `None` at
that point — the held session survives untouched (here `some "S1"`), because
`Connection::resume` never clears it.  The run below receives
`InvalidateSession`, sends IDENTIFY, then fails on the next read, so the final
state is exactly the state at the moment after the IDENTIFY send. -/
theorem invalidate_in_resume_keeps_session :
    Act.wireSend 1 (identify "T") ∈
      (resume ⟨"wss://gw", "T", some "S1", 7⟩ "S1" none
        ⟨none, [], [.ok .InvalidateSession, .error (.Other "io")]⟩ 1 (fun _ => true)).2.2 ∧
    (resume ⟨"wss://gw", "T", some "S1", 7⟩ "S1" none
        ⟨none, [], [.ok .InvalidateSession, .error (.Other "io")]⟩ 1
        (fun _ => true)).2.1.session_id = some "S1" ∧
    some "S1" ≠ (none : Option String) := by
  refine ⟨?_, rfl, by simp⟩
  have : (resume ⟨"wss://gw", "T", some "S1", 7⟩ "S1" none
      ⟨none, [], [.ok .InvalidateSession, .error (.Other "io")]⟩ 1 (fun _ => true)).2.2 =
      [Act.resumeStart, Act.shutdownTransport, Act.openTransport "wss://gw?v=6",
       Act.wireSend 1 (resumePayload 7 "T" "S1"), Act.wireSend 1 (identify "T")] := rfl
  rw [this]
  simp

/-- C3 (amended): after an `InvalidateSession` frame the next outbound frame
is an IDENTIFY (op-2), never the op-6 RESUME, in all three contexts:
`recv_event` clears `session_id` to `None` and then enqueues the IDENTIFY as
its first action; the `connect` read loop re-sends IDENTIFY on the raw writer
and keeps reading; the `resume` read loop re-sends IDENTIFY and keeps reading
with the held `session_id` unchanged (it is not cleared there; it is only
replaced when a `Ready` dispatch later arrives). -/
theorem invalidate_session_identify (c : Connection) (env : RecvEnv) (parse : String → Bool)
    (fs : List (Except Error GatewayEvent)) (token : String) (sid : Nat)
    (se : List (Option Error)) :
    recv_event c env parse (.ok .InvalidateSession :: fs) =
      ((recv_event { c with session_id := none } env parse fs).1,
       (recv_event { c with session_id := none } env parse fs).2.1,
       Act.chanSend (Status.SendMessage (identify c.token)) ::
         (recv_event { c with session_id := none } env parse fs).2.2) ∧
    jsonOp (identify c.token) = some (.num 2) ∧
    jsonOp (resumePayload c.last_sequence c.token token) = some (.num 6) ∧
    identify c.token ≠ resumePayload c.last_sequence c.token token ∧
    ((popSend se).1 = none →
       connectLoop token sid se (.ok .InvalidateSession :: fs) =
         ((connectLoop token sid (popSend se).2 fs).1,
          Act.wireSend sid (identify token) :: (connectLoop token sid (popSend se).2 fs).2)) ∧
    ((popSend se).1 = none →
       resumeLoop c sid se (.ok .InvalidateSession :: fs) =
         ((resumeLoop c sid (popSend se).2 fs).1,
          Act.wireSend sid (identify c.token) :: (resumeLoop c sid (popSend se).2 fs).2)) := by
  refine ⟨rfl, rfl, rfl, ?_, ?_, ?_⟩
  · intro h
    have h2 := jsonOp_identify c.token
    rw [h, jsonOp_resumePayload] at h2
    simp at h2
  · intro hpe
    simp only [connectLoop, hpe]
  · intro hpe
    simp only [resumeLoop, hpe]

/-- Witness for C3 (amended): concrete instance of the `recv_event` equation
and the three-context IDENTIFY facts. -/
theorem invalidate_session_identify_witness :
    recv_event ⟨"wss://gw", "T", some "S1", 7⟩
        ⟨none, ⟨none, [], []⟩, 1, ⟨⟨none, [], []⟩, 2, ⟨none, [], []⟩, 3,
          .error (.Other "rest down"), none⟩⟩ (fun _ => true)
        [.ok .InvalidateSession] =
      ((recv_event ⟨"wss://gw", "T", none, 7⟩
          ⟨none, ⟨none, [], []⟩, 1, ⟨⟨none, [], []⟩, 2, ⟨none, [], []⟩, 3,
            .error (.Other "rest down"), none⟩⟩ (fun _ => true) []).1,
       (recv_event ⟨"wss://gw", "T", none, 7⟩
          ⟨none, ⟨none, [], []⟩, 1, ⟨⟨none, [], []⟩, 2, ⟨none, [], []⟩, 3,
            .error (.Other "rest down"), none⟩⟩ (fun _ => true) []).2.1,
       Act.chanSend (Status.SendMessage (identify "T")) ::
         (recv_event ⟨"wss://gw", "T", none, 7⟩
            ⟨none, ⟨none, [], []⟩, 1, ⟨⟨none, [], []⟩, 2, ⟨none, [], []⟩, 3,
              .error (.Other "rest down"), none⟩⟩ (fun _ => true) []).2.2) ∧
    identify "T" ≠ resumePayload 7 "T" "S1" :=
  ⟨(invalidate_session_identify ⟨"wss://gw", "T", some "S1", 7⟩
      ⟨none, ⟨none, [], []⟩, 1, ⟨⟨none, [], []⟩, 2, ⟨none, [], []⟩, 3,
        .error (.Other "rest down"), none⟩⟩ (fun _ => true) [] "S1" 1 []).1,
   (invalidate_session_identify ⟨"wss://gw", "T", some "S1", 7⟩
      ⟨none, ⟨none, [], []⟩, 1, ⟨⟨none, [], []⟩, 2, ⟨none, [], []⟩, 3,
        .error (.Other "rest down"), none⟩⟩ (fun _ => true) [] "S1" 1 []).2.2.2.1⟩

/-- C7 counterexample: on an unexpected frame during open the source fails
with `Error::Protocol("Unexpected event during connection open")`, which is a
different message from the claimed `Protocol("unexpected event during
open")`. -/
theorem connect_protocol_message_differs :
    (connect "wss://gw" "T" (fun _ => true) ⟨none, [], [.ok .Reconnect]⟩ 0).1 =
      .error (.Protocol "Unexpected event during connection open") ∧
    Error.Protocol "Unexpected event during connection open" ≠
      Error.Protocol "unexpected event during open" :=
  ⟨rfl, by decide⟩

/-- The open read loop after `n` InvalidateSession frames returns at the first
`Ready` dispatch, having re-sent IDENTIFY once per InvalidateSession, without
reading past the `Ready`. -/
theorem connectLoop_replicate (token : String) (sid : Nat) (n : Nat) (seq : Nat)
    (ev : ReadyEvent) (rest : List (Except Error GatewayEvent)) :
    connectLoop token sid [] (List.replicate n (.ok .InvalidateSession) ++
        .ok (.Dispatch seq (.Ready ev)) :: rest) =
      (.ok (seq, ev), List.replicate n (Act.wireSend sid (identify token))) := by
  induction n with
  | zero => simp [connectLoop]
  | succ n ih =>
    rw [List.replicate_succ, List.cons_append]
    simp only [connectLoop, popSend_nil, ih]
    rw [List.replicate_succ]

/-- The open read loop fails with the source's protocol error when, after any
number of InvalidateSession frames, a frame arrives that is neither an
InvalidateSession nor a `Ready` dispatch. -/
theorem connectLoop_replicate_err (token : String) (sid : Nat) (n : Nat) (g : GatewayEvent)
    (rest : List (Except Error GatewayEvent))
    (hg1 : ∀ s r, g ≠ .Dispatch s (.Ready r)) (hg2 : g ≠ .InvalidateSession) :
    (connectLoop token sid [] (List.replicate n (.ok .InvalidateSession) ++
        .ok g :: rest)).1 =
      .error (.Protocol "Unexpected event during connection open") := by
  induction n with
  | zero =>
    rw [List.replicate_zero, List.nil_append]
    cases g with
    | Dispatch s e =>
      cases e with
      | Ready r => exact absurd rfl (hg1 s r)
      | Resumed hi => simp [connectLoop]
      | Other t => simp [connectLoop]
    | Heartbeat s => simp [connectLoop]
    | Reconnect => simp [connectLoop]
    | InvalidateSession => exact absurd rfl hg2
  | succ n ih =>
    rw [List.replicate_succ, List.cons_append]
    simp only [connectLoop, popSend_nil]
    exact ih

/-- C7 (amended): during the post-IDENTIFY read loop of `connect`, the loop
returns exactly when a `Ready` dispatch arrives (here after `n`
InvalidateSession frames, each of which re-sent IDENTIFY, without reading
further frames); any other frame fails with
`Protocol("Unexpected event during connection open")` — the source's actual
message — and no `Connection` is returned; on the `Ready` the sequence and
`session_id` are recorded in the returned `Connection`. -/
theorem connect_open_loop (base token : String) (parse : String → Bool) (sid n seq : Nat)
    (ev : ReadyEvent) (g : GatewayEvent) (rest : List (Except Error GatewayEvent))
    (hp : parse (versionedUrl base) = true) :
    connectLoop token sid [] (List.replicate n (.ok .InvalidateSession) ++
        .ok (.Dispatch seq (.Ready ev)) :: rest) =
      (.ok (seq, ev), List.replicate n (Act.wireSend sid (identify token))) ∧
    ((∀ s r, g ≠ .Dispatch s (.Ready r)) → g ≠ .InvalidateSession →
       (connectLoop token sid [] (List.replicate n (.ok .InvalidateSession) ++
           .ok g :: rest)).1 =
         .error (.Protocol "Unexpected event during connection open")) ∧
    connect base token parse
        ⟨none, [], List.replicate n (.ok .InvalidateSession) ++
          .ok (.Dispatch seq (.Ready ev)) :: rest⟩ sid =
      (.ok ({ ws_url := base, token := token, session_id := some ev.session_id,
              last_sequence := seq }, ev),
       Act.openTransport (versionedUrl base) :: Act.wireSend sid (identify token) ::
         List.replicate n (Act.wireSend sid (identify token)) ++
         [Act.spawnKeepalive ev.heartbeat_interval sid]) := by
  have h1 := connectLoop_replicate token sid n seq ev rest
  refine ⟨h1, fun hg1 hg2 => connectLoop_replicate_err token sid n g rest hg1 hg2, ?_⟩
  unfold connect
  rw [if_pos hp]
  simp [h1]

/-- Witness for C7: one InvalidateSession then READY yields the READY with one
IDENTIFY re-send; a lone Reconnect frame yields the protocol error. -/
theorem connect_open_loop_witness :
    connectLoop "T" 0 [] [.ok .InvalidateSession, .ok (.Dispatch 1 (.Ready ⟨6, "S1", 41250⟩))] =
      (.ok (1, ⟨6, "S1", 41250⟩), [Act.wireSend 0 (identify "T")]) ∧
    (connectLoop "T" 0 [] [.ok .Reconnect]).1 =
      .error (.Protocol "Unexpected event during connection open") :=
  ⟨(connect_open_loop "wss://gw" "T" (fun _ => true) 0 1 1 ⟨6, "S1", 41250⟩
      .Reconnect [] rfl).1,
   (connect_open_loop "wss://gw" "T" (fun _ => true) 0 0 1 ⟨6, "S1", 41250⟩
      .Reconnect [] rfl).2.1 (by simp) (by simp)⟩

/-- Raw sends distribute over trace concatenation. -/
theorem sentFrames_append (l1 l2 : List Act) :
    sentFrames (l1 ++ l2) = sentFrames l1 ++ sentFrames l2 := by
  induction l1 with
  | nil => rfl
  | cons a l ih => cases a <;> simp [sentFrames, ih]

/-- Idle keepalive iterations (no commands, no disconnect, no tick) only
sleep: they change no state and write nothing. -/
theorem keepalive_idle (st : KState) (iters : List KIter) (pre : Nat) :
    keepaliveRun st (List.replicate pre ⟨[], false, false⟩ ++ iters) =
      ((keepaliveRun st iters).1,
       List.replicate pre (Act.sleepMs 100) ++ (keepaliveRun st iters).2.1,
       (keepaliveRun st iters).2.2) := by
  induction pre with
  | zero => simp
  | succ p ih =>
    rw [List.replicate_succ, List.cons_append]
    simp only [keepaliveRun, kIter, drainCmds]
    simp only [Bool.false_eq_true, if_false]
    rw [ih]
    rw [List.replicate_succ]
    simp

/-- No frame is written by a run of sleeps. -/
theorem sentFrames_replicate_sleep (k : Nat) :
    sentFrames (List.replicate k (Act.sleepMs 100)) = [] := by
  induction k with
  | zero => rfl
  | succ p ih =>
    rw [List.replicate_succ]
    simpa [sentFrames] using ih

/-- C5 counterexample: in the clean-open scenario `connect` does return the
READY with `session_id = "S1"`, but the first heartbeat frame the keepalive
worker writes — with no Sequence command ever sent — is `{op:1,d:0}`, not the
claimed `{op:1,d:1}`: the worker's sequence mirror starts at 0 and `connect`
never forwards the READY's sequence to it. -/
theorem clean_open_first_heartbeat_zero :
    (connect "wss://gw" "T" (fun _ => true)
        ⟨none, [], [.ok (.Dispatch 1 (.Ready ⟨6, "S1", 41250⟩))]⟩ 0).1 =
      .ok ({ ws_url := "wss://gw", token := "T", session_id := some "S1",
             last_sequence := 1 }, ⟨6, "S1", 41250⟩) ∧
    Act.spawnKeepalive 41250 0 ∈ (connect "wss://gw" "T" (fun _ => true)
        ⟨none, [], [.ok (.Dispatch 1 (.Ready ⟨6, "S1", 41250⟩))]⟩ 0).2 ∧
    sentFrames (keepalive 41250 0 [⟨[], false, true⟩]).2.1 = [heartbeatJson 0] ∧
    heartbeatJson 0 = .obj (jf [("op", .num 1), ("d", .num 0)]) ∧
    heartbeatJson 0 ≠ heartbeatJson 1 := by
  refine ⟨rfl, ?_, rfl, rfl, by decide⟩
  have htr : (connect "wss://gw" "T" (fun _ => true)
      ⟨none, [], [.ok (.Dispatch 1 (.Ready ⟨6, "S1", 41250⟩))]⟩ 0).2 =
      [Act.openTransport "wss://gw?v=6", Act.wireSend 0 (identify "T"),
       Act.spawnKeepalive 41250 0] := rfl
  rw [htr]
  simp

/-- C5 (amended): in a clean open whose first dispatch is READY with sequence
1 and heartbeat_interval 41250, `connect` returns the connection (recording
sequence 1 and session "S1") together with the READY snapshot, and the first
heartbeat frame the keepalive worker writes — after any number of idle polls
and with no intervening Sequence command — is `{op:1,d:0}`, carrying the
worker's spawn-time sequence mirror 0 rather than the READY's sequence. -/
theorem clean_open_first_heartbeat (interval sid pre : Nat) :
    (connect "wss://gw" "T" (fun _ => true)
        ⟨none, [], [.ok (.Dispatch 1 (.Ready ⟨6, "S1", 41250⟩))]⟩ sid).1 =
      .ok ({ ws_url := "wss://gw", token := "T", session_id := some "S1",
             last_sequence := 1 }, ⟨6, "S1", 41250⟩) ∧
    sentFrames (keepalive interval sid
        (List.replicate pre ⟨[], false, false⟩ ++ [⟨[], false, true⟩])).2.1 =
      [heartbeatJson 0] ∧
    heartbeatJson 0 = .obj (jf [("op", .num 1), ("d", .num 0)]) := by
  refine ⟨rfl, ?_, rfl⟩
  unfold keepalive
  rw [keepalive_idle]
  rw [sentFrames_append, sentFrames_replicate_sleep]
  rfl

/-- One keepalive iteration reports exit exactly when the channel was observed
disconnected. -/
theorem kIter_exit (st : KState) (it : KIter) : (kIter st it).2.2 = it.disc := by
  unfold kIter
  cases hd : it.disc
  · cases ht : it.tick <;> simp [hd, ht]
  · simp [hd]

/-- Acts of a command drain are raw sends only. -/
theorem drainCmds_acts (cs : List Status) :
    ∀ (st : KState) (a : Act), a ∈ (drainCmds st cs).2 → ∃ s2 j, a = Act.wireSend s2 j := by
  induction cs with
  | nil =>
    intro st a h
    simp [drainCmds] at h
  | cons c cs ih =>
    intro st a h
    simp only [drainCmds] at h
    rw [List.mem_append] at h
    rcases h with h | h
    · match c with
      | .SendMessage v =>
        simp [applyCmd] at h
        exact ⟨st.senderId, v, h⟩
      | .Sequence n => simp [applyCmd] at h
      | .ChangeInterval i => simp [applyCmd] at h
      | .ChangeSender s2 => simp [applyCmd] at h
    · exact ih _ a h

/-- Possible traces of one keepalive iteration: the poll sleep and the drained
sends, optionally followed by one heartbeat. -/
theorem kIter_acts (st : KState) (it : KIter) :
    (kIter st it).2.1 = Act.sleepMs 100 :: (drainCmds st it.cmds).2 ∨
    (kIter st it).2.1 = Act.sleepMs 100 :: (drainCmds st it.cmds).2 ++
      [Act.wireSend (drainCmds st it.cmds).1.senderId
        (heartbeatJson (drainCmds st it.cmds).1.last_sequence)] := by
  unfold kIter
  cases hd : it.disc
  · cases ht : it.tick
    · left
      simp [hd, ht]
    · right
      simp [hd, ht]
  · left
    simp [hd]

/-- The writer-shutdown act never occurs inside a single iteration's trace. -/
theorem kIter_no_shutdown (st : KState) (it : KIter) (s : Nat) :
    Act.writerShutdown s ∉ (kIter st it).2.1 := by
  intro h
  rcases kIter_acts st it with ha | ha <;> rw [ha] at h <;>
    · simp at h
      obtain ⟨s2, j, hsj⟩ := drainCmds_acts it.cmds st _ h
      simp at hsj

/-- The keepalive loop reports exit exactly when some scheduled iteration
observes the channel disconnected. -/
theorem keepaliveRun_exit_iff (iters : List KIter) :
    ∀ st : KState, (keepaliveRun st iters).2.2 = true ↔ ∃ it ∈ iters, it.disc = true := by
  induction iters with
  | nil =>
    intro st
    simp [keepaliveRun]
  | cons it its ih =>
    intro st
    cases hd : it.disc
    · have he : (kIter st it).2.2 = false := by rw [kIter_exit, hd]
      simp only [keepaliveRun, he, Bool.false_eq_true, if_false]
      rw [ih]
      simp [hd]
    · have he : (kIter st it).2.2 = true := by rw [kIter_exit, hd]
      simp only [keepaliveRun, he, if_true]
      simp [hd]

/-- While the loop has not exited, no writer shutdown has been performed. -/
theorem keepaliveRun_no_shutdown (iters : List KIter) :
    ∀ st : KState, (keepaliveRun st iters).2.2 = false →
      ∀ s, Act.writerShutdown s ∉ (keepaliveRun st iters).2.1 := by
  induction iters with
  | nil =>
    intro st _ s h
    simp [keepaliveRun] at h
  | cons it its ih =>
    intro st hex s h
    cases hd : (kIter st it).2.2
    · simp only [keepaliveRun, hd, Bool.false_eq_true, if_false] at hex h
      rw [List.mem_append] at h
      rcases h with h | h
      · exact kIter_no_shutdown st it s h
      · exact ih _ hex s h
    · simp [keepaliveRun, hd] at hex

/-- On exit the final act of the loop is the writer shutdown. -/
theorem keepaliveRun_last_shutdown (iters : List KIter) :
    ∀ st : KState, (keepaliveRun st iters).2.2 = true →
      ∃ s, (keepaliveRun st iters).2.1.getLast? = some (Act.writerShutdown s) := by
  induction iters with
  | nil =>
    intro st h
    simp [keepaliveRun] at h
  | cons it its ih =>
    intro st hex
    cases hd : (kIter st it).2.2
    · simp only [keepaliveRun, hd, Bool.false_eq_true, if_false] at hex ⊢
      obtain ⟨s, hs⟩ := ih ((kIter st it).1) hex
      refine ⟨s, ?_⟩
      have hne : (keepaliveRun (kIter st it).1 its).2.1 ≠ [] := by
        intro hnil
        rw [hnil] at hs
        simp at hs
      rw [List.getLast?_append_of_ne_nil _ hne]
      exact hs
    · simp only [keepaliveRun, hd, if_true]
      exact ⟨(kIter st it).1.senderId, by simp⟩

/-- The loop stops at the first disconnecting iteration: iterations scheduled
after it are never processed. -/
theorem keepaliveRun_stop_at_disc (pre : List KIter) :
    ∀ (st : KState) (it : KIter) (post : List KIter), (∀ j ∈ pre, j.disc = false) →
      it.disc = true →
      keepaliveRun st (pre ++ it :: post) = keepaliveRun st (pre ++ [it]) := by
  induction pre with
  | nil =>
    intro st it post _ hd
    have he : (kIter st it).2.2 = true := by rw [kIter_exit, hd]
    simp only [List.nil_append, keepaliveRun, he, if_true]
  | cons j pre ih =>
    intro st it post hpre hd
    have hj : j.disc = false := hpre j (List.mem_cons_self j pre)
    have he : (kIter st j).2.2 = false := by rw [kIter_exit, hj]
    rw [List.cons_append, List.cons_append]
    simp only [keepaliveRun, he, Bool.false_eq_true, if_false]
    rw [ih _ it post (fun x hx => hpre x (List.mem_cons_of_mem j hx)) hd]

/-- C8: the keepalive loop never exits while the command channel is connected
(with no disconnect observed the exit flag stays false and no writer shutdown
is performed), it exits at the first iteration observing the channel
disconnected — iterations scheduled after that one are never processed — and
on exit its final act shuts the transport writer down; so the worker spawned
as `keepalive interval sid` terminates iff the command channel is dropped. -/
theorem keepalive_terminates_iff_dropped (st : KState) (interval sid : Nat)
    (iters : List KIter) :
    ((keepaliveRun st iters).2.2 = true ↔ ∃ it ∈ iters, it.disc = true) ∧
    ((keepaliveRun st iters).2.2 = false →
       ∀ s, Act.writerShutdown s ∉ (keepaliveRun st iters).2.1) ∧
    ((keepaliveRun st iters).2.2 = true →
       ∃ s, (keepaliveRun st iters).2.1.getLast? = some (Act.writerShutdown s)) ∧
    (∀ pre it post, (∀ j ∈ pre, j.disc = false) → it.disc = true →
       keepaliveRun st (pre ++ it :: post) = keepaliveRun st (pre ++ [it])) ∧
    ((keepalive interval sid iters).2.2 = true ↔ ∃ it ∈ iters, it.disc = true) :=
  ⟨keepaliveRun_exit_iff iters st, keepaliveRun_no_shutdown iters st,
   keepaliveRun_last_shutdown iters st,
   fun pre it post h1 h2 => keepaliveRun_stop_at_disc pre st it post h1 h2,
   keepaliveRun_exit_iff iters _⟩

/-- Witness for C8: a schedule whose only iteration observes the disconnect
makes the worker exit with a final writer shutdown. -/
theorem keepalive_terminates_iff_dropped_witness :
    ∃ s, (keepaliveRun ⟨41250, 0, 0⟩ [⟨[], true, false⟩]).2.1.getLast? =
      some (Act.writerShutdown s) :=
  (keepalive_terminates_iff_dropped ⟨41250, 0, 0⟩ 41250 0 [⟨[], true, false⟩]).2.2.1 rfl

/-- C9: the control operations `set_game`, `set_game_name` and
`__download_members` always succeed, leave every field of the connection
unchanged, enqueue exactly one `SendMessage` command carrying the documented
payload, and behave identically whether or not the keepalive worker is still
alive — the enqueue result is discarded, so a dead worker makes them silent
no-ops. -/
theorem control_ops_enqueue_only (c : Connection) (a b : Bool) (g : Option Game)
    (name : String) (servers : List ServerId) :
    (set_game c a g).1 = c ∧
    (set_game c a g).2 = [Act.chanSend (Status.SendMessage (setGameJson g))] ∧
    set_game c a g = set_game c b g ∧
    set_game_name c a name = set_game c a (some (Game.playing name)) ∧
    (set_game_name c a name).1 = c ∧
    (__download_members c a servers).1 = c ∧
    (__download_members c a servers).2 =
      [Act.chanSend (Status.SendMessage (downloadMembersJson servers))] ∧
    __download_members c a servers = __download_members c b servers :=
  ⟨rfl, rfl, rfl, rfl, rfl, rfl, rfl, rfl⟩

/-- Marker predicate: a cached-URL `Connection::new` call. -/
def isConnectCall : Act → Bool
  | .connectCall _ => true
  | _ => false

/-- Marker predicate: the REST fallback call. -/
def isRestFetch : Act → Bool
  | .restFetch => true
  | _ => false

/-- Handshake acts are neither connect-call markers nor REST markers. -/
theorem handshake_not_marker (a : Act) (h : isHandshakeAct a = true) :
    isConnectCall a = false ∧ isRestFetch a = false := by
  cases a <;> simp [isHandshakeAct, isConnectCall, isRestFetch] at h ⊢

/-- A `Connection::new` trace contains no connect-call markers. -/
theorem connect_countP_connectCall (base token : String) (parse : String → Bool)
    (w : Wire) (sid : Nat) :
    (connect base token parse w sid).2.countP isConnectCall = 0 := by
  rw [List.countP_eq_zero]
  intro a ha
  rw [(handshake_not_marker a (connect_acts base token parse w sid a ha)).1]
  simp

/-- A `Connection::new` trace contains no REST markers. -/
theorem connect_countP_restFetch (base token : String) (parse : String → Bool)
    (w : Wire) (sid : Nat) :
    (connect base token parse w sid).2.countP isRestFetch = 0 := by
  rw [List.countP_eq_zero]
  intro a ha
  rw [(handshake_not_marker a (connect_acts base token parse w sid a ha)).2]
  simp

/-- Successful adoption returns the fresh READY and records its session id. -/
theorem adoptConn_ok (conn : Connection) (ready : ReadyEvent) (sde : Option Error)
    (acts : List Act) (r : ReadyEvent) (h : (adoptConn conn ready sde acts).1 = .ok r) :
    r = ready ∧ (adoptConn conn ready sde acts).2.1.session_id = some ready.session_id := by
  cases sde with
  | some e => simp [adoptConn] at h
  | none =>
    simp [adoptConn] at h ⊢
    exact h.symm

/-- A `Connection::new` trace contains no connect-call marker. -/
theorem connect_no_connectCall (base token : String) (parse : String → Bool) (w : Wire)
    (sid : Nat) (u : String) : Act.connectCall u ∉ (connect base token parse w sid).2 := by
  intro h
  have hm := (handshake_not_marker _ (connect_acts base token parse w sid _ h)).1
  simp [isConnectCall] at hm

/-- A `Connection::new` trace contains no REST marker. -/
theorem connect_no_restFetch (base token : String) (parse : String → Bool) (w : Wire)
    (sid : Nat) : Act.restFetch ∉ (connect base token parse w sid).2 := by
  intro h
  have hm := (handshake_not_marker _ (connect_acts base token parse w sid _ h)).2
  simp [isRestFetch] at hm

/-- C2: one `reconnect` invocation makes at most two `Connection::new`
attempts, every one against the cached `ws_url`; whenever the first attempt
fails, a 1-second sleep separates it from the second attempt; the REST
collaborator is called iff both cached attempts fail, and then exactly once,
with its failure propagating to the caller; and on any overall success the
returned READY's `session_id` is recorded in the resulting state and the old
transport is shut down. -/
theorem reconnect_policy (c : Connection) (o : ReconnectOracle) (parse : String → Bool) :
    ((reconnect c o parse).2.2.countP isConnectCall ≤ 2) ∧
    (∀ u, Act.connectCall u ∈ (reconnect c o parse).2.2 → u = c.ws_url) ∧
    ((Act.restFetch ∈ (reconnect c o parse).2.2) ↔
       ((∃ e1, (connect c.ws_url c.token parse o.wire1 o.sid1).1 = .error e1) ∧
        (∃ e2, (connect c.ws_url c.token parse o.wire2 o.sid2).1 = .error e2))) ∧
    ((reconnect c o parse).2.2.countP isRestFetch ≤ 1) ∧
    (∀ e1 e2 e, (connect c.ws_url c.token parse o.wire1 o.sid1).1 = .error e1 →
       (connect c.ws_url c.token parse o.wire2 o.sid2).1 = .error e2 →
       o.rest = .error e → (reconnect c o parse).1 = .error e) ∧
    (∀ e1, (connect c.ws_url c.token parse o.wire1 o.sid1).1 = .error e1 →
       ∃ tl, (reconnect c o parse).2.2 =
         Act.reconnectStart :: Act.connectCall c.ws_url ::
           (connect c.ws_url c.token parse o.wire1 o.sid1).2 ++
           Act.sleepMs 1000 :: Act.connectCall c.ws_url :: tl) ∧
    (∀ r, (reconnect c o parse).1 = .ok r →
       (reconnect c o parse).2.1.session_id = some r.session_id ∧
       Act.shutdownTransport ∈ (reconnect c o parse).2.2) := by
  rcases reconnect_cases c o parse with
    ⟨conn, ready, h1, heq⟩ | ⟨e1, conn, ready, h1, h2, heq⟩ |
    ⟨e1, e2, h1, h2, ⟨e, hr, heq⟩ | ⟨conn, ready, hr, heq⟩⟩
  · -- first cached attempt succeeded
    rw [heq, adoptConn_acts]
    refine ⟨?_, ?_, ?_, ?_, ?_, ?_, ?_⟩
    · simp [List.countP_append, List.countP_cons, connect_countP_connectCall,
        isConnectCall]
    · intro u hu
      simp at hu
      rcases hu with hu | hu
      · exact hu
      · exact absurd hu (connect_no_connectCall _ _ _ _ _ _)
    · constructor
      · intro hmem
        simp at hmem
        exact absurd hmem (connect_no_restFetch _ _ _ _ _)
      · rintro ⟨⟨e1', he1⟩, _⟩
        rw [h1] at he1
        simp at he1
    · simp [List.countP_append, List.countP_cons, connect_countP_restFetch,
        isRestFetch]
    · intro e1' e2' e' he1 he2 herest
      rw [h1] at he1
      simp at he1
    · intro e1' he1
      rw [h1] at he1
      simp at he1
    · intro r hres
      obtain ⟨hre, hsess⟩ := adoptConn_ok conn ready o.shutdownErr _ r hres
      refine ⟨?_, by simp⟩
      rw [hre]
      exact hsess
  · -- second cached attempt succeeded
    rw [heq, adoptConn_acts]
    refine ⟨?_, ?_, ?_, ?_, ?_, ?_, ?_⟩
    · simp [List.countP_append, List.countP_cons, connect_countP_connectCall,
        isConnectCall]
    · intro u hu
      simp at hu
      casesm* _ ∨ _ <;>
        first
          | assumption
          | exact absurd (by assumption) (connect_no_connectCall _ _ _ _ _ _)
    · constructor
      · intro hmem
        simp at hmem
        rcases hmem with hmem | hmem
        · exact absurd hmem (connect_no_restFetch _ _ _ _ _)
        · exact absurd hmem (connect_no_restFetch _ _ _ _ _)
      · rintro ⟨_, ⟨e2', he2⟩⟩
        rw [h2] at he2
        simp at he2
    · simp [List.countP_append, List.countP_cons, connect_countP_restFetch,
        isRestFetch]
    · intro e1' e2' e' he1 he2 herest
      rw [h2] at he2
      simp at he2
    · intro e1' he1
      refine ⟨(connect c.ws_url c.token parse o.wire2 o.sid2).2 ++
        [Act.shutdownTransport], ?_⟩
      simp [List.append_assoc]
    · intro r hres
      obtain ⟨hre, hsess⟩ := adoptConn_ok conn ready o.shutdownErr _ r hres
      refine ⟨?_, by simp⟩
      rw [hre]
      exact hsess
  · -- both cached attempts failed, REST failed
    rw [heq]
    refine ⟨?_, ?_, ?_, ?_, ?_, ?_, ?_⟩
    · simp [List.countP_append, List.countP_cons, connect_countP_connectCall,
        isConnectCall]
    · intro u hu
      simp at hu
      casesm* _ ∨ _ <;>
        first
          | assumption
          | exact absurd (by assumption) (connect_no_connectCall _ _ _ _ _ _)
    · exact ⟨fun _ => ⟨⟨e1, h1⟩, ⟨e2, h2⟩⟩, fun _ => by simp⟩
    · simp [List.countP_append, List.countP_cons, connect_countP_restFetch,
        isRestFetch]
    · intro e1' e2' e' he1 he2 herest
      rw [hr] at herest
      simp at herest
      rw [herest]
    · intro e1' he1
      refine ⟨(connect c.ws_url c.token parse o.wire2 o.sid2).2 ++
        [Act.sleepMs 1000, Act.restFetch], ?_⟩
      simp [List.append_assoc]
    · intro r hres
      simp at hres
  · -- both cached attempts failed, REST succeeded
    rw [heq, adoptConn_acts]
    refine ⟨?_, ?_, ?_, ?_, ?_, ?_, ?_⟩
    · simp [List.countP_append, List.countP_cons, connect_countP_connectCall,
        isConnectCall]
    · intro u hu
      simp at hu
      casesm* _ ∨ _ <;>
        first
          | assumption
          | exact absurd (by assumption) (connect_no_connectCall _ _ _ _ _ _)
    · exact ⟨fun _ => ⟨⟨e1, h1⟩, ⟨e2, h2⟩⟩, fun _ => by simp⟩
    · simp [List.countP_append, List.countP_cons, connect_countP_restFetch,
        isRestFetch]
    · intro e1' e2' e' he1 he2 herest
      rw [hr] at herest
      simp at herest
    · intro e1' he1
      refine ⟨(connect c.ws_url c.token parse o.wire2 o.sid2).2 ++
        [Act.sleepMs 1000, Act.restFetch, Act.shutdownTransport], ?_⟩
      simp [List.append_assoc]
    · intro r hres
      obtain ⟨hre, hsess⟩ := adoptConn_ok conn ready o.shutdownErr _ r hres
      refine ⟨?_, by simp⟩
      rw [hre]
      exact hsess

/-- Witness for C2: with both cached attempts failing (unparseable URL) and a
failing REST fallback, the REST error propagates and the REST call mark is in
the trace. -/
theorem reconnect_policy_witness :
    (reconnect ⟨"u", "T", some "S", 5⟩
        ⟨⟨none, [], []⟩, 1, ⟨none, [], []⟩, 2, .error (.Other "rest down"), none⟩
        (fun _ => false)).1 = .error (.Other "rest down") ∧
    Act.restFetch ∈ (reconnect ⟨"u", "T", some "S", 5⟩
        ⟨⟨none, [], []⟩, 1, ⟨none, [], []⟩, 2, .error (.Other "rest down"), none⟩
        (fun _ => false)).2.2 :=
  ⟨(reconnect_policy ⟨"u", "T", some "S", 5⟩
      ⟨⟨none, [], []⟩, 1, ⟨none, [], []⟩, 2, .error (.Other "rest down"), none⟩
      (fun _ => false)).2.2.2.2.1 _ _ _ rfl rfl rfl,
   ((reconnect_policy ⟨"u", "T", some "S", 5⟩
      ⟨⟨none, [], []⟩, 1, ⟨none, [], []⟩, 2, .error (.Other "rest down"), none⟩
      (fun _ => false)).2.2.1).mpr ⟨⟨_, rfl⟩, ⟨_, rfl⟩⟩⟩
